import Mathlib

/-!
Verification of the `isMultiline` first-pass classifier
(`src/packages/format/src/format/passes/isMultiline/isMultilineFirstPass.ts`).

The classifier assigns every syntax-tree node a boolean `isMultiline` flag in
one post-order traversal.  The AST, the parent index, the comment index, the
linear-length provider, and the `getIsMultiline`/`setIsMultiline` helpers live
outside the provided sources; they are modelled here from the specification's
contracts (each such definition says so in its doc comment).  Everything else
is translated directly from `isMultilineFirstPass.ts`.

Node identity: every per-node fact is keyed by a stable identifier derived
from the node's token span (`node.tokenRange.hash` in the source); it is
modelled as a `Nat` field named `hash` carried by every node.
-/

/-- A `Constant` AST node (a raw token such as `(`, `)`, `+`, `if`). -/
structure Constant where
  hash : Nat
  literal : String

/-- An `Identifier` AST node; `literal` is the identifier's source text. -/
structure Identifier where
  hash : Nat
  literal : String

/-- A `GeneralizedIdentifier` AST node. -/
structure GeneralizedIdentifier where
  hash : Nat
  literal : String

/-- An `IdentifierExpression` AST node: an optional inclusive (`@`) constant
followed by an identifier. -/
structure IdentifierExpression where
  hash : Nat
  maybeInclusiveConstant : Option Constant
  identifier : Identifier

/-- The parser's `Ast.LiteralKind` enumeration. -/
inductive LiteralKind where
  | list
  | logical
  | null
  | numeric
  | record
  | str
deriving DecidableEq

/-- A `LiteralExpression` AST node; `literal` is the raw literal text. -/
structure LiteralExpression where
  hash : Nat
  literalKind : LiteralKind
  literal : String

mutual

/-- The parser's `Ast.TNode` variant, restricted to the closed kind set the
classifier's `switch` dispatches on (modelled from the parser package, which
is an external collaborator of this repository; fields are those the
classifier reads, plus children needed to form whole trees). -/
inductive TNode where
  | asNullablePrimitiveType (hash : Nat) (constant : Constant) (paired : TNode)
  | asType (hash : Nat) (constant : Constant) (paired : TNode)
  | eachExpression (hash : Nat) (constant : Constant) (paired : TNode)
  | errorRaisingExpression (hash : Nat) (constant : Constant) (paired : TNode)
  | nullablePrimitiveType (hash : Nat) (constant : Constant) (paired : TNode)
  | nullableType (hash : Nat) (constant : Constant) (paired : TNode)
  | otherwiseExpression (hash : Nat) (constant : Constant) (paired : TNode)
  | typePrimaryType (hash : Nat) (constant : Constant) (paired : TNode)
  | arithmeticExpression (hash : Nat) (first : TNode) (rest : List UnaryExpressionHelper)
  | equalityExpression (hash : Nat) (first : TNode) (rest : List UnaryExpressionHelper)
  | logicalExpression (hash : Nat) (first : TNode) (rest : List UnaryExpressionHelper)
  | relationalExpression (hash : Nat) (first : TNode) (rest : List UnaryExpressionHelper)
  | isExpression (hash : Nat) (left : TNode) (constant : Constant) (right : TNode)
  | asExpression (hash : Nat) (left : TNode) (constant : Constant) (right : TNode)
  | metadataExpression (hash : Nat) (left : TNode) (constant : Constant) (right : TNode)
  | generalizedIdentifierPairedAnyLiteral
      (hash : Nat) (key : GeneralizedIdentifier) (equalConstant : Constant) (value : TNode)
  | generalizedIdentifierPairedExpression
      (hash : Nat) (key : GeneralizedIdentifier) (equalConstant : Constant) (value : TNode)
  | identifierExpressionPairedExpression
      (hash : Nat) (key : IdentifierExpression) (equalConstant : Constant) (value : TNode)
  | identifierPairedExpression
      (hash : Nat) (key : Identifier) (equalConstant : Constant) (value : TNode)
  | listExpression (hash : Nat) (openWrapperConstant : Constant)
      (content : List Csv) (closeWrapperConstant : Constant)
  | listLiteral (hash : Nat) (openWrapperConstant : Constant)
      (content : List Csv) (closeWrapperConstant : Constant)
  | recordExpression (hash : Nat) (openWrapperConstant : Constant)
      (content : List Csv) (closeWrapperConstant : Constant)
  | recordLiteral (hash : Nat) (openWrapperConstant : Constant)
      (content : List Csv) (closeWrapperConstant : Constant)
  | csv (c : Csv)
  | errorHandlingExpression (hash : Nat) (tryConstant : Constant)
      (protectedExpression : TNode) (maybeOtherwiseExpression : Option TNode)
  | fieldProjection (hash : Nat) (openWrapperConstant : Constant)
      (content : List Csv) (closeWrapperConstant : Constant)
      (maybeOptionalConstant : Option Constant)
  | fieldSelector (hash : Nat) (openWrapperConstant : Constant)
      (content : GeneralizedIdentifier) (closeWrapperConstant : Constant)
      (maybeOptionalConstant : Option Constant)
  | fieldSpecification (hash : Nat) (maybeOptionalConstant : Option Constant)
      (name : GeneralizedIdentifier) (maybeFieldTypeSpeification : Option TNode)
  | fieldSpecificationList (hash : Nat) (openWrapperConstant : Constant)
      (content : List Csv) (maybeOpenRecordMarkerConstant : Option Constant)
      (closeWrapperConstant : Constant)
  | fieldTypeSpecification (hash : Nat) (equalConstant : Constant) (fieldType : TNode)
  | functionExpression (hash : Nat) (parameters : TNode)
      (maybeFunctionReturnType : Option TNode) (fatArrowConstant : Constant)
      (expression : TNode)
  | identifierExpression (e : IdentifierExpression)
  | ifExpression (hash : Nat) (ifConstant : Constant) (condition : TNode)
      (thenConstant : Constant) (trueExpression : TNode)
      (elseConstant : Constant) (falseExpression : TNode)
  | invokeExpression (e : InvokeExpression)
  | itemAccessExpression (hash : Nat) (openWrapperConstant : Constant)
      (content : TNode) (closeWrapperConstant : Constant)
      (maybeOptionalConstant : Option Constant)
  | letExpression (hash : Nat) (letConstant : Constant) (variableList : List Csv)
      (inConstant : Constant) (expression : TNode)
  | literalExpression (e : LiteralExpression)
  | listType (hash : Nat) (openWrapperConstant : Constant) (content : TNode)
      (closeWrapperConstant : Constant)
  | parenthesizedExpression (hash : Nat) (openWrapperConstant : Constant)
      (content : TNode) (closeWrapperConstant : Constant)
  | primitiveType (hash : Nat) (primitiveType : Constant)
  | recordType (hash : Nat) (fields : TNode)
  | recursivePrimaryExpression (hash : Nat) (head : TNode)
      (recursiveExpressions : List TNode)
  | sectionNode (hash : Nat) (maybeLiteralAttributes : Option TNode)
      (sectionConstant : Constant) (maybeName : Option Identifier)
      (semicolonConstant : Constant) (sectionMembers : List TNode)
  | sectionMember (hash : Nat) (maybeLiteralAttributes : Option TNode)
      (maybeSharedConstant : Option Constant) (namePairedExpression : TNode)
      (semicolonConstant : Constant)
  | tableType (hash : Nat) (tableConstant : Constant) (rowType : TNode)
  | unaryExpression (hash : Nat) (expressions : List UnaryExpressionHelper)
  | unaryExpressionHelperNode (u : UnaryExpressionHelper)
  | constant (c : Constant)
  | functionType (hash : Nat) (parameters : TNode) (functionReturnType : TNode)
  | generalizedIdentifier (g : GeneralizedIdentifier)
  | identifier (i : Identifier)
  | notImplementedExpression (hash : Nat) (ellipsisConstant : Constant)
  | parameter (hash : Nat) (maybeOptionalConstant : Option Constant)
      (name : Identifier) (maybeParameterType : Option TNode)
  | parameterList (hash : Nat) (openWrapperConstant : Constant)
      (content : List Csv) (closeWrapperConstant : Constant)

/-- A `Csv` AST node: a comma-separated element wrapping a payload node and an
optional trailing comma constant. -/
inductive Csv where
  | mk (hash : Nat) (node : TNode) (maybeCommaConstant : Option Constant)

/-- A `UnaryExpressionHelper` AST node: an operator constant applied to an
operand; also used for the `rest` elements of binary-operator chains. -/
inductive UnaryExpressionHelper where
  | mk (hash : Nat) (operatorConstant : Constant) (node : TNode)

/-- An `InvokeExpression` AST node: an argument list in wrapper parentheses. -/
inductive InvokeExpression where
  | mk (hash : Nat) (openWrapperConstant : Constant) (content : List Csv)
      (closeWrapperConstant : Constant)

end

/-- Token-span identifier of a `Csv` node. -/
def Csv.hash : Csv → Nat
  | .mk h _ _ => h

/-- Payload node of a `Csv` node (`csv.node` in the source). -/
def Csv.node : Csv → TNode
  | .mk _ n _ => n

/-- Optional trailing comma of a `Csv` node. -/
def Csv.maybeCommaConstant : Csv → Option Constant
  | .mk _ _ c => c

/-- Token-span identifier of a `UnaryExpressionHelper` node. -/
def UnaryExpressionHelper.hash : UnaryExpressionHelper → Nat
  | .mk h _ _ => h

/-- Operator constant of a `UnaryExpressionHelper` node. -/
def UnaryExpressionHelper.operatorConstant : UnaryExpressionHelper → Constant
  | .mk _ c _ => c

/-- Operand of a `UnaryExpressionHelper` node (`helper.node` in the source). -/
def UnaryExpressionHelper.node : UnaryExpressionHelper → TNode
  | .mk _ _ n => n

/-- Token-span identifier of an `InvokeExpression` node. -/
def InvokeExpression.hash : InvokeExpression → Nat
  | .mk h _ _ _ => h

/-- Open-wrapper constant of an `InvokeExpression` node. -/
def InvokeExpression.openWrapperConstant : InvokeExpression → Constant
  | .mk _ o _ _ => o

/-- Argument list of an `InvokeExpression` node (`node.content`). -/
def InvokeExpression.content : InvokeExpression → List Csv
  | .mk _ _ c _ => c

/-- Close-wrapper constant of an `InvokeExpression` node. -/
def InvokeExpression.closeWrapperConstant : InvokeExpression → Constant
  | .mk _ _ _ c => c

/-- The stable structural identifier of a node (`node.tokenRange.hash` in the
source): the join key for every independently-built per-node map. -/
def TNode.hash : TNode → Nat
  | .asNullablePrimitiveType h _ _ => h
  | .asType h _ _ => h
  | .eachExpression h _ _ => h
  | .errorRaisingExpression h _ _ => h
  | .nullablePrimitiveType h _ _ => h
  | .nullableType h _ _ => h
  | .otherwiseExpression h _ _ => h
  | .typePrimaryType h _ _ => h
  | .arithmeticExpression h _ _ => h
  | .equalityExpression h _ _ => h
  | .logicalExpression h _ _ => h
  | .relationalExpression h _ _ => h
  | .isExpression h _ _ _ => h
  | .asExpression h _ _ _ => h
  | .metadataExpression h _ _ _ => h
  | .generalizedIdentifierPairedAnyLiteral h _ _ _ => h
  | .generalizedIdentifierPairedExpression h _ _ _ => h
  | .identifierExpressionPairedExpression h _ _ _ => h
  | .identifierPairedExpression h _ _ _ => h
  | .listExpression h _ _ _ => h
  | .listLiteral h _ _ _ => h
  | .recordExpression h _ _ _ => h
  | .recordLiteral h _ _ _ => h
  | .csv c => c.hash
  | .errorHandlingExpression h _ _ _ => h
  | .fieldProjection h _ _ _ _ => h
  | .fieldSelector h _ _ _ _ => h
  | .fieldSpecification h _ _ _ => h
  | .fieldSpecificationList h _ _ _ _ => h
  | .fieldTypeSpecification h _ _ => h
  | .functionExpression h _ _ _ _ => h
  | .identifierExpression e => e.hash
  | .ifExpression h _ _ _ _ _ _ => h
  | .invokeExpression e => e.hash
  | .itemAccessExpression h _ _ _ _ => h
  | .letExpression h _ _ _ _ => h
  | .literalExpression e => e.hash
  | .listType h _ _ _ => h
  | .parenthesizedExpression h _ _ _ => h
  | .primitiveType h _ => h
  | .recordType h _ => h
  | .recursivePrimaryExpression h _ _ => h
  | .sectionNode h _ _ _ _ _ => h
  | .sectionMember h _ _ _ _ => h
  | .tableType h _ _ => h
  | .unaryExpression h _ => h
  | .unaryExpressionHelperNode u => u.hash
  | .constant c => c.hash
  | .functionType h _ _ => h
  | .generalizedIdentifier g => g.hash
  | .identifier i => i.hash
  | .notImplementedExpression h _ => h
  | .parameter h _ _ _ => h
  | .parameterList h _ _ _ => h

/-- Modelled from the spec (`common.ts` is not among the provided sources):
the multiline map is a "mapping from node identifier to boolean", keyed by
the node's token-span identifier. -/
def IsMultilineMap : Type := List (Nat × Bool)

/-- Modelled from the spec (`common.ts` is not among the provided sources):
`getIsMultiline(node, isMultilineMap)` reads the node's entry; a listed child
counts as multiline exactly when it "already has a `true` flag in the map",
so an absent entry reads as `false`. -/
def getIsMultiline (node : TNode) (isMultilineMap : IsMultilineMap) : Bool :=
  match isMultilineMap.lookup node.hash with
  | some isMultiline => isMultiline
  | none => false

/-- Modelled from the spec (`common.ts` is not among the provided sources):
`setIsMultiline(node, isMultilineMap, isMultiline)` commits the node's entry;
each node's entry is written exactly once, so prepending (with first-match
lookup) realises the mapping update. -/
def setIsMultiline (node : TNode) (isMultilineMap : IsMultilineMap)
    (isMultiline : Bool) : IsMultilineMap :=
  (node.hash, isMultiline) :: isMultilineMap

/-- Modelled from the spec (`comment.ts` is not among the provided sources):
a comment-collection entry is a "per token-span record with at least the
boolean field 'preceding comment block contains a newline'". -/
structure CommentCollection where
  prefixedCommentsContainsNewline : Bool

/-- Modelled from the spec: the comment index, keyed by token span
(`commentIndex.get(tokenSpan) -> { precededByNewlineComment: bool } | absent`). -/
def CommentCollectionMap : Type := List (Nat × CommentCollection)

/-- Modelled from the spec (`parent.ts` is not among the provided sources):
the parent index, keyed by node identifier. -/
def ParentMap : Type := List (Nat × TNode)

/-- Modelled from the spec: `parentIndex.get(node) -> parent | absent`
(`maybeGetParent` in `parent.ts`, which is not among the provided sources). -/
def maybeGetParent (node : TNode) (parentMap : ParentMap) : Option TNode :=
  parentMap.lookup node.hash

/-- Modelled from the spec: the linear-length provider
(`linearLength.ts` is not among the provided sources), read-only for the
classifier: `linearLengthProvider.get(node) -> integer >= 0`, the character
count of the node's flattened single-line rendering, keyed by node identity.
The provider's per-node memoization (`LinearLengthMap`) is invisible to the
flags and is elided. -/
def LinearLengthProvider : Type := Nat → Nat

/-- `getLinearLength(node, linearLengthMap)`: reads the node's flattened
one-line character count from the (spec-modelled) provider. -/
def getLinearLength (node : TNode) (linearLengths : LinearLengthProvider) : Nat :=
  linearLengths node.hash

/-- The traversal state threaded through `visitNode`: the in-progress result
map plus the comment index, parent index, and linear-length provider. -/
structure State where
  result : IsMultilineMap
  commentCollectionMap : CommentCollectionMap
  parentMap : ParentMap
  linearLengths : LinearLengthProvider

/-- The fault raised on a grammar-invariant violation
(`CommonError.InvariantError` with a `details` payload holding the offending
node and its actual parent, or `none` for absence). -/
structure InvariantError where
  message : String
  node : TNode
  maybeParent : Option TNode

/-- `InvokeExpressionIdentifierLinearLengthExclusions`: the four constructor
identifiers excluded from the long-invocation multiline forcing. -/
def InvokeExpressionIdentifierLinearLengthExclusions : List String :=
  ["#datetime", "#datetimezone", "#duration", "#time"]

/-- `TBinOpExpressionLinearLengthThreshold`. -/
def TBinOpExpressionLinearLengthThreshold : Nat := 30

/-- `TBinOpExpressionExpressionNumberThreshold`. -/
def TBinOpExpressionExpressionNumberThreshold : Nat := 3

/-- `InvokeExpressionLinearLengthThreshold`. -/
def InvokeExpressionLinearLengthThreshold : Nat := 30

/-- Modelled from the spec: `StringHelpers.containsNewline` from the external
parser package; true when the raw text contains a line-break character. -/
def containsNewline (text : String) : Bool :=
  text.any (fun c => c = '\n' || c = '\r')

/-- `isAnyListOrRecord(nodes)`: true when some node is a list or record
literal/expression. -/
def isAnyListOrRecord (nodes : List TNode) : Bool :=
  nodes.any (fun node =>
    match node with
    | .listExpression _ _ _ _ => true
    | .listLiteral _ _ _ _ => true
    | .recordExpression _ _ _ _ => true
    | .recordLiteral _ _ _ _ => true
    | _ => false)

/-- `isAnyMultiline(isMultilineMap, ...maybeNodes)`: true when some present
node already has a `true` flag in the map. -/
def isAnyMultiline (isMultilineMap : IsMultilineMap)
    (maybeNodes : List (Option TNode)) : Bool :=
  maybeNodes.any (fun maybeNode =>
    match maybeNode with
    | some node => getIsMultiline node isMultilineMap
    | none => false)

/-- `isAnyMultilineUnaryHelper(isMultilineMap, unaryExpressions, ...nodes)`:
appends each helper's operand node to `nodes` and defers to
`isAnyMultiline`. -/
def isAnyMultilineUnaryHelper (isMultilineMap : IsMultilineMap)
    (unaryExpressions : List UnaryExpressionHelper) (nodes : List TNode) : Bool :=
  isAnyMultiline isMultilineMap
    ((nodes ++ unaryExpressions.map UnaryExpressionHelper.node).map some)

/-- `precededByMultilineComment(node, state)`: looks up the comment index by
the node's token-span identifier; an absent entry reads as `false`. -/
def precededByMultilineComment (node : TNode) (state : State) : Bool :=
  match state.commentCollectionMap.lookup node.hash with
  | some commentCollection => commentCollection.prefixedCommentsContainsNewline
  | none => false

/-- The comment-driven override inside `setIsMultilineWithCommentCheck`: a
preceding newline-containing comment forces the flag to `true`, otherwise the
rule-derived flag passes through. -/
def commentOverriddenFlag (node : TNode) (state : State) (isMultiline : Bool) : Bool :=
  if precededByMultilineComment node state then true else isMultiline

/-- `setIsMultilineWithCommentCheck(node, state, isMultiline)`: commits the
(possibly comment-overridden) flag into the result map. -/
def setIsMultilineWithCommentCheck (node : TNode) (state : State)
    (isMultiline : Bool) : IsMultilineMap :=
  setIsMultiline node state.result (commentOverriddenFlag node state isMultiline)

/-- `maybeGetInvokeExpressionIdentifier(node, state)`: resolves an invocation
to the identifier heading it, when the parent recursive-primary expression
has exactly one chained expression and its head is an identifier expression;
throws an `InvariantError` when the parent is absent or not a
`RecursivePrimaryExpression` (the source's `details` there names the node and
a stray `parent` reference; the model records the actual lookup result). -/
def maybeGetInvokeExpressionIdentifier (node : InvokeExpression) (state : State) :
    Except InvariantError (Option IdentifierExpression) :=
  match maybeGetParent (.invokeExpression node) state.parentMap with
  | some (.recursivePrimaryExpression _ head recursiveExpressions) =>
    if recursiveExpressions.length ≠ 1 then
      .ok none
    else
      match head with
      | .identifierExpression e => .ok (some e)
      | _ => .ok none
  | maybeParent =>
    .error
      { message := "InvokeExpression should always have a RecursivePrimaryExpression as a parent"
        node := .invokeExpression node
        maybeParent := maybeParent }

mutual

/-- `numTBinOpExpressions(node)`: a node of one of the four
`TBinOpExpression` kinds contributes its `first` operand's count plus the
count of each element of `rest`; every other node contributes 1
(`Ast.isTBinOpExpression` is true exactly on the four chain kinds). -/
def numTBinOpExpressions : TNode → Nat
  | .arithmeticExpression _ first rest
  | .equalityExpression _ first rest
  | .logicalExpression _ first rest
  | .relationalExpression _ first rest =>
    numTBinOpExpressions first + numTBinOpExpressionsRest rest
  | _ => 1

/-- The source folds `numTBinOpExpressions` over `node.rest`; each element is
a `UnaryExpressionHelper` node, for which `Ast.isTBinOpExpression` is false,
so each contributes exactly 1 (spelled out here because Lean's structural
recursion cannot re-wrap the helper as a `TNode`). -/
def numTBinOpExpressionsRest : List UnaryExpressionHelper → Nat
  | [] => 0
  | _ :: rest => 1 + numTBinOpExpressionsRest rest

end

/-- The kind-specific rule of `visitNode`: the value the `switch` statement
leaves in the local `isMultiline` variable (initialized `false`), or the
`InvariantError` thrown on the way.  Case order follows the source. -/
def visitNodeRule (node : TNode) (state : State) : Except InvariantError Bool :=
  match node with
  | .asNullablePrimitiveType _ constant paired
  | .asType _ constant paired
  | .eachExpression _ constant paired
  | .errorRaisingExpression _ constant paired
  | .nullablePrimitiveType _ constant paired
  | .nullableType _ constant paired
  | .otherwiseExpression _ constant paired
  | .typePrimaryType _ constant paired =>
    .ok (isAnyMultiline state.result [some (.constant constant), some paired])
  | .arithmeticExpression _ first rest
  | .equalityExpression _ first rest
  | .logicalExpression _ first rest
  | .relationalExpression _ first rest =>
    let numExpressions := numTBinOpExpressions node
    if numExpressions > TBinOpExpressionExpressionNumberThreshold then
      .ok true
    else
      let linearLength := getLinearLength node state.linearLengths
      if linearLength > TBinOpExpressionLinearLengthThreshold then
        .ok true
      else
        .ok (isAnyMultilineUnaryHelper state.result rest [first])
  | .isExpression _ left constant right
  | .asExpression _ left constant right
  | .metadataExpression _ left constant right =>
    .ok (isAnyMultiline state.result
      [some left, some (.constant constant), some right])
  | .generalizedIdentifierPairedAnyLiteral _ key equalConstant value =>
    .ok (isAnyMultiline state.result
      [some (.generalizedIdentifier key), some (.constant equalConstant), some value])
  | .generalizedIdentifierPairedExpression _ key equalConstant value =>
    .ok (isAnyMultiline state.result
      [some (.generalizedIdentifier key), some (.constant equalConstant), some value])
  | .identifierExpressionPairedExpression _ key equalConstant value =>
    .ok (isAnyMultiline state.result
      [some (.identifierExpression key), some (.constant equalConstant), some value])
  | .identifierPairedExpression _ key equalConstant value =>
    .ok (isAnyMultiline state.result
      [some (.identifier key), some (.constant equalConstant), some value])
  | .listExpression _ openWrapperConstant content closeWrapperConstant
  | .listLiteral _ openWrapperConstant content closeWrapperConstant
  | .recordExpression _ openWrapperConstant content closeWrapperConstant
  | .recordLiteral _ openWrapperConstant content closeWrapperConstant =>
    if content.length > 1 then
      .ok true
    else
      let isAnyChildMultiline := isAnyMultiline state.result
        ([some (.constant openWrapperConstant), some (.constant closeWrapperConstant)]
          ++ content.map (fun csv => some (.csv csv)))
      if isAnyChildMultiline then
        .ok true
      else
        .ok (isAnyListOrRecord (content.map Csv.node))
  | .csv c =>
    .ok (isAnyMultiline state.result
      [some c.node, c.maybeCommaConstant.map TNode.constant])
  | .errorHandlingExpression _ tryConstant protectedExpression maybeOtherwiseExpression =>
    .ok (isAnyMultiline state.result
      [some (.constant tryConstant), some protectedExpression, maybeOtherwiseExpression])
  | .fieldProjection _ openWrapperConstant content closeWrapperConstant maybeOptionalConstant =>
    .ok (isAnyMultiline state.result
      ([some (.constant openWrapperConstant), some (.constant closeWrapperConstant),
        maybeOptionalConstant.map TNode.constant]
        ++ content.map (fun csv => some (.csv csv))))
  | .fieldSelector _ openWrapperConstant content closeWrapperConstant maybeOptionalConstant =>
    .ok (isAnyMultiline state.result
      [some (.constant openWrapperConstant), some (.generalizedIdentifier content),
       some (.constant closeWrapperConstant), maybeOptionalConstant.map TNode.constant])
  | .fieldSpecification _ maybeOptionalConstant name maybeFieldTypeSpeification =>
    .ok (isAnyMultiline state.result
      [maybeOptionalConstant.map TNode.constant, some (.generalizedIdentifier name),
       maybeFieldTypeSpeification])
  | .fieldSpecificationList _ _ content maybeOpenRecordMarkerConstant _ =>
    let fields := content
    if fields.length > 1 then
      .ok true
    else if fields.length = 1 && maybeOpenRecordMarkerConstant.isSome then
      .ok true
    else
      .ok false
  | .fieldTypeSpecification _ equalConstant fieldType =>
    .ok (isAnyMultiline state.result
      [some (.constant equalConstant), some fieldType])
  | .functionExpression _ _ _ _ expression =>
    .ok (getIsMultiline expression state.result)
  | .identifierExpression e =>
    .ok (isAnyMultiline state.result
      [e.maybeInclusiveConstant.map TNode.constant, some (.identifier e.identifier)])
  | .ifExpression _ _ _ _ _ _ _ =>
    .ok true
  | .invokeExpression e =>
    let args := e.content
    if args.length > 1 then
      let linearLength := getLinearLength node state.linearLengths
      match maybeGetParent node state.parentMap with
      | some (.recursivePrimaryExpression _ head _) =>
        let headLinearLength := getLinearLength head state.linearLengths
        let compositeLinearLength := linearLength + headLinearLength
        if compositeLinearLength > InvokeExpressionLinearLengthThreshold then
          match maybeGetInvokeExpressionIdentifier e state with
          | .error err => .error err
          | .ok maybeInvokeExpressionIdentifier =>
            match maybeInvokeExpressionIdentifier with
            | some invokeExpressionIdentifier =>
              if invokeExpressionIdentifier.maybeInclusiveConstant.isSome then
                .ok true
              else
                let identifierLiteral := invokeExpressionIdentifier.identifier.literal
                .ok (!(InvokeExpressionIdentifierLinearLengthExclusions.contains identifierLiteral))
            | none => .ok false
        else
          .ok (isAnyMultiline state.result
            ([some (.constant e.openWrapperConstant), some (.constant e.closeWrapperConstant)]
              ++ args.map (fun csv => some (.csv csv))))
      | maybeParent =>
        .error
          { message := "InvokeExpression must have RecursivePrimaryExpression as a parent"
            node := node
            maybeParent := maybeParent }
    else
      .ok (isAnyMultiline state.result
        ([some (.constant e.openWrapperConstant), some (.constant e.closeWrapperConstant)]
          ++ args.map (fun csv => some (.csv csv))))
  | .itemAccessExpression _ _ content closeWrapperConstant maybeOptionalConstant =>
    .ok (isAnyMultiline state.result
      [maybeOptionalConstant.map TNode.constant, some content,
       some (.constant closeWrapperConstant), maybeOptionalConstant.map TNode.constant])
  | .letExpression _ _ _ _ _ =>
    .ok true
  | .literalExpression e =>
    if e.literalKind = LiteralKind.str && containsNewline e.literal then
      .ok true
    else
      .ok false
  | .listType _ openWrapperConstant content closeWrapperConstant =>
    .ok (isAnyMultiline state.result
      [some (.constant openWrapperConstant), some content,
       some (.constant closeWrapperConstant)])
  | .parenthesizedExpression _ openWrapperConstant content closeWrapperConstant =>
    .ok (isAnyMultiline state.result
      [some (.constant openWrapperConstant), some content,
       some (.constant closeWrapperConstant)])
  | .primitiveType _ primitiveType =>
    .ok (getIsMultiline (.constant primitiveType) state.result)
  | .recordType _ fields =>
    .ok (getIsMultiline fields state.result)
  | .recursivePrimaryExpression _ head recursiveExpressions =>
    .ok (isAnyMultiline state.result
      (some head :: recursiveExpressions.map some))
  | .sectionNode _ maybeLiteralAttributes sectionConstant maybeName semicolonConstant sectionMembers =>
    if sectionMembers.length ≠ 0 then
      .ok true
    else
      .ok (isAnyMultiline state.result
        ([maybeLiteralAttributes, some (.constant sectionConstant),
          maybeName.map TNode.identifier, some (.constant semicolonConstant)]
          ++ sectionMembers.map some))
  | .sectionMember _ maybeLiteralAttributes maybeSharedConstant namePairedExpression semicolonConstant =>
    .ok (isAnyMultiline state.result
      [maybeLiteralAttributes, maybeSharedConstant.map TNode.constant,
       some namePairedExpression, some (.constant semicolonConstant)])
  | .tableType _ tableConstant rowType =>
    .ok (isAnyMultiline state.result
      [some (.constant tableConstant), some rowType])
  | .unaryExpression _ expressions =>
    .ok (isAnyMultilineUnaryHelper state.result expressions [])
  | .unaryExpressionHelperNode u =>
    .ok (isAnyMultiline state.result
      [some (.constant u.operatorConstant), some u.node])
  | .constant _ => .ok false
  | .functionType _ _ _ => .ok false
  | .generalizedIdentifier _ => .ok false
  | .identifier _ => .ok false
  | .notImplementedExpression _ _ => .ok false
  | .parameter _ _ _ _ => .ok false
  | .parameterList _ _ _ _ => .ok false

/-- `visitNode(node, state)`: computes the kind-specific flag and commits it
through the comment check, yielding the updated state (or the thrown
`InvariantError`). -/
def visitNode (node : TNode) (state : State) : Except InvariantError State :=
  match visitNodeRule node state with
  | .error err => .error err
  | .ok isMultiline =>
    .ok { state with result := setIsMultilineWithCommentCheck node state isMultiline }

/-- The flag `visitNode` commits for a node: the node's entry in the result
map after the visit. -/
def visitNodeCommittedFlag (node : TNode) (state : State) : Except InvariantError Bool :=
  (visitNode node state).map (fun newState => getIsMultiline node newState.result)

/-- The external depth-first post-order driver applied to an explicit
visiting order (modelled from the spec: the traversal engine is an external
collaborator; it visits every child before its parent and threads the state
through `visitNode`). -/
def visitAll (nodes : List TNode) (state : State) : Except InvariantError State :=
  match nodes with
  | [] => .ok state
  | node :: rest =>
    match visitNode node state with
    | .error err => .error err
    | .ok newState => visitAll rest newState

/-- Operator families of the four binary-chain kinds. -/
inductive BinOpFamily where
  | arithmetic
  | equality
  | logical
  | relational
deriving DecidableEq

/-- The operator family of a binary-chain node, or `none` otherwise. -/
def binOpFamilyOf : TNode → Option BinOpFamily
  | .arithmeticExpression _ _ _ => some .arithmetic
  | .equalityExpression _ _ _ => some .equality
  | .logicalExpression _ _ _ => some .logical
  | .relationalExpression _ _ _ => some .relational
  | _ => none

mutual

/-- The flattened terminal-operand count exactly as the claim words it: a
chain's operands are its `first` operand and each `rest` element's operand; a
nested binary-chain node of the same family contributes its own count
recursively, every other operand counts as 1. -/
def sameFamilyOperandContribution (family : BinOpFamily) (node : TNode) : Nat :=
  match node with
  | .arithmeticExpression _ first rest =>
    if family = .arithmetic then
      sameFamilyOperandContribution .arithmetic first
        + sameFamilyRestContribution .arithmetic rest
    else 1
  | .equalityExpression _ first rest =>
    if family = .equality then
      sameFamilyOperandContribution .equality first
        + sameFamilyRestContribution .equality rest
    else 1
  | .logicalExpression _ first rest =>
    if family = .logical then
      sameFamilyOperandContribution .logical first
        + sameFamilyRestContribution .logical rest
    else 1
  | .relationalExpression _ first rest =>
    if family = .relational then
      sameFamilyOperandContribution .relational first
        + sameFamilyRestContribution .relational rest
    else 1
  | _ => 1

/-- Sum of the same-family contributions of the operands carried by the
`rest` elements of a chain. -/
def sameFamilyRestContribution (family : BinOpFamily) :
    List UnaryExpressionHelper → Nat
  | [] => 0
  | .mk _ _ operand :: rest =>
    sameFamilyOperandContribution family operand
      + sameFamilyRestContribution family rest

end

/-- The flattened terminal-operand count of a binary-chain node per the
claim's reading (same-family recursion); 1 on non-chain nodes. -/
def sameFamilyOperandCount (node : TNode) : Nat :=
  match binOpFamilyOf node with
  | some family => sameFamilyOperandContribution family node
  | none => 1

/-- The flattened terminal-operand count the code actually computes, stated
independently of `numTBinOpExpressions`: recursion descends into the `first`
operand whenever it is a binary-chain node of any of the four families, and
each `rest` element contributes exactly 1 (even when its operand is itself a
chain). -/
def anyFamilyOperandCount : TNode → Nat
  | .arithmeticExpression _ first rest => anyFamilyOperandCount first + rest.length
  | .equalityExpression _ first rest => anyFamilyOperandCount first + rest.length
  | .logicalExpression _ first rest => anyFamilyOperandCount first + rest.length
  | .relationalExpression _ first rest => anyFamilyOperandCount first + rest.length
  | _ => 1

/-- A numeric literal leaf used to build concrete test trees. -/
def numericLiteral (hash : Nat) (text : String) : TNode :=
  .literalExpression { hash := hash, literalKind := .numeric, literal := text }

/-- A `Csv` argument wrapping a numeric literal, with a trailing comma. -/
def numericArgCsv (hash : Nat) (text : String) : Csv :=
  .mk hash (numericLiteral (hash + 1) text) (some { hash := hash + 2, literal := "," })

/-! Concrete data for the binary-chain claim: the source text `1+2+3=4`, an
equality chain whose `first` operand is the arithmetic chain `1+2+3`. -/

/-- The literal `1`. -/
def oneLiteral : TNode := numericLiteral 1 "1"

/-- The literal `2`. -/
def twoLiteral : TNode := numericLiteral 2 "2"

/-- The literal `3`. -/
def threeLiteral : TNode := numericLiteral 3 "3"

/-- The literal `4`. -/
def fourLiteral : TNode := numericLiteral 4 "4"

/-- The `+ 2` element of the arithmetic chain. -/
def plusTwoHelper : UnaryExpressionHelper := .mk 10 { hash := 11, literal := "+" } twoLiteral

/-- The `+ 3` element of the arithmetic chain. -/
def plusThreeHelper : UnaryExpressionHelper := .mk 12 { hash := 13, literal := "+" } threeLiteral

/-- The arithmetic chain `1+2+3`. -/
def onePlusTwoPlusThree : TNode := .arithmeticExpression 20 oneLiteral [plusTwoHelper, plusThreeHelper]

/-- The `= 4` element of the equality chain. -/
def equalsFourHelper : UnaryExpressionHelper := .mk 14 { hash := 15, literal := "=" } fourLiteral

/-- The equality chain `1+2+3=4`. -/
def mixedFamilyChain : TNode := .equalityExpression 30 onePlusTwoPlusThree [equalsFourHelper]

/-- State for the `1+2+3=4` tree: no comments, no parents needed, linear
lengths 7 for the whole chain and 5 for `1+2+3`. -/
def mixedFamilyChainState : State :=
  { result := []
    commentCollectionMap := []
    parentMap := []
    linearLengths := fun hash => if hash = 30 then 7 else if hash = 20 then 5 else 1 }

/-- A post-order visiting sequence of the `1+2+3=4` tree: every node before
its parent. -/
def mixedFamilyChainPostOrder : List TNode :=
  [oneLiteral, .constant { hash := 11, literal := "+" }, twoLiteral,
   .unaryExpressionHelperNode plusTwoHelper,
   .constant { hash := 13, literal := "+" }, threeLiteral,
   .unaryExpressionHelperNode plusThreeHelper, onePlusTwoPlusThree,
   .constant { hash := 15, literal := "=" }, fourLiteral,
   .unaryExpressionHelperNode equalsFourHelper, mixedFamilyChain]

/-! Concrete data for the excluded long-invocation scenario:
`#datetimezone(2013,02,26,...)`. -/

/-- The bare identifier expression `#datetimezone` (no inclusive `@`). -/
def datetimezoneIdentifier : IdentifierExpression :=
  { hash := 100, maybeInclusiveConstant := none, identifier := { hash := 101, literal := "#datetimezone" } }

/-- The argument list `(2013,02,26)` of the constructor call (three of the
scenario's eight arguments suffice for the structural conditions). -/
def datetimezoneInvoke : InvokeExpression :=
  .mk 110 { hash := 111, literal := "(" }
    [numericArgCsv 120 "2013", numericArgCsv 123 "02", numericArgCsv 126 "26"]
    { hash := 112, literal := ")" }

/-- The recursive-primary parent of the call: head `#datetimezone`, one
chained expression (the invocation itself). -/
def datetimezoneRecursivePrimary : TNode :=
  .recursivePrimaryExpression 130 (.identifierExpression datetimezoneIdentifier)
    [.invokeExpression datetimezoneInvoke]

/-- State for the `#datetimezone` call: parent index maps the invocation to
its recursive-primary parent; linear lengths 26 for the call and 13 for the
head, so the composite 39 exceeds the threshold 30. -/
def datetimezoneState : State :=
  { result := []
    commentCollectionMap := []
    parentMap := [(110, datetimezoneRecursivePrimary)]
    linearLengths := fun hash => if hash = 110 then 26 else if hash = 100 then 13 else 1 }

/-! Concrete data for a long invocation whose head is not an identifier: the
source text `(f)(aVeryLongArgumentNameOne, aVeryLongArgumentNameTwo)`. -/

/-- The parenthesized callee `(f)`. -/
def parenthesizedHead : TNode :=
  .parenthesizedExpression 200 { hash := 201, literal := "(" }
    (numericLiteral 202 "f") { hash := 203, literal := ")" }

/-- The two-argument invocation `(aVeryLongArgumentNameOne, aVeryLongArgumentNameTwo)`. -/
def parenthesizedHeadInvoke : InvokeExpression :=
  .mk 210 { hash := 211, literal := "(" }
    [numericArgCsv 220 "aVeryLongArgumentNameOne", numericArgCsv 223 "aVeryLongArgumentNameTwo"]
    { hash := 212, literal := ")" }

/-- The recursive-primary parent: head `(f)`, one chained expression. -/
def parenthesizedHeadRecursivePrimary : TNode :=
  .recursivePrimaryExpression 230 parenthesizedHead [.invokeExpression parenthesizedHeadInvoke]

/-- State for the `(f)(...)` call: composite linear length 50 + 3 = 53 > 30,
no comments. -/
def parenthesizedHeadState : State :=
  { result := []
    commentCollectionMap := []
    parentMap := [(210, parenthesizedHeadRecursivePrimary)]
    linearLengths := fun hash => if hash = 210 then 50 else if hash = 200 then 3 else 1 }

/-! Concrete data for the non-excluded long invocation
`foo(aVeryLongArgumentNameOne, aVeryLongArgumentNameTwo)`. -/

/-- The bare identifier expression `foo`. -/
def fooIdentifier : IdentifierExpression :=
  { hash := 300, maybeInclusiveConstant := none, identifier := { hash := 301, literal := "foo" } }

/-- The two-argument invocation after `foo`. -/
def fooInvoke : InvokeExpression :=
  .mk 310 { hash := 311, literal := "(" }
    [numericArgCsv 320 "aVeryLongArgumentNameOne", numericArgCsv 323 "aVeryLongArgumentNameTwo"]
    { hash := 312, literal := ")" }

/-- The recursive-primary parent of the `foo` call. -/
def fooRecursivePrimary : TNode :=
  .recursivePrimaryExpression 330 (.identifierExpression fooIdentifier)
    [.invokeExpression fooInvoke]

/-- State for the `foo` call: composite linear length 50 + 3 = 53 > 30. -/
def fooState : State :=
  { result := []
    commentCollectionMap := []
    parentMap := [(310, fooRecursivePrimary)]
    linearLengths := fun hash => if hash = 310 then 50 else if hash = 300 then 3 else 1 }

/-- An invocation with two arguments whose parent index holds no entry,
violating the grammar invariant. -/
def orphanInvoke : InvokeExpression :=
  .mk 400 { hash := 401, literal := "(" }
    [numericArgCsv 410 "a", numericArgCsv 413 "b"]
    { hash := 402, literal := ")" }

/-- State with an empty parent index for the orphan invocation. -/
def orphanState : State :=
  { result := []
    commentCollectionMap := []
    parentMap := []
    linearLengths := fun _ => 1 }

/-- A leaf constant node preceded by a newline-containing comment block in
the comment index. -/
def commentedConstant : TNode := .constant { hash := 500, literal := "x" }

/-- State whose comment index reports a preceding newline-containing comment
for the node with identifier 500. -/
def commentedState : State :=
  { result := []
    commentCollectionMap := [(500, { prefixedCommentsContainsNewline := true })]
    parentMap := []
    linearLengths := fun _ => 1 }

/-- The classification the code gives a long invocation once its head is
known: `true` when the head is an identifier expression that carries an
inclusive (`@`) constant or whose literal is outside the exclusion set;
`false` for any non-identifier head. -/
def invokeExpressionIdentifierFlag : TNode → Bool
  | .identifierExpression identExpr =>
    identExpr.maybeInclusiveConstant.isSome
      || !(InvokeExpressionIdentifierLinearLengthExclusions.contains
            identExpr.identifier.literal)
  | _ => false

/-- The identifier expression a recursive-primary head resolves to, when it
is one. -/
def headIdentifierExpression : TNode → Option IdentifierExpression
  | .identifierExpression identExpr => some identExpr
  | _ => none

theorem getIsMultiline_setIsMultiline (node : TNode) (m : IsMultilineMap) (b : Bool) :
    getIsMultiline node (setIsMultiline node m b) = b := by
  simp [getIsMultiline, setIsMultiline, List.lookup]

theorem getIsMultiline_setIsMultilineWithCommentCheck (node : TNode) (state : State) (b : Bool) :
    getIsMultiline node (setIsMultilineWithCommentCheck node state b)
      = commentOverriddenFlag node state b := by
  simp [setIsMultilineWithCommentCheck, getIsMultiline_setIsMultiline]

theorem numTBinOpExpressionsRest_eq_length (rest : List UnaryExpressionHelper) :
    numTBinOpExpressionsRest rest = rest.length := by
  induction rest with
  | nil => simp [numTBinOpExpressionsRest]
  | cons h t ih => simp [numTBinOpExpressionsRest, ih, Nat.add_comm]

theorem numTBinOpExpressions_eq_anyFamilyOperandCount :
    ∀ (node : TNode), numTBinOpExpressions node = anyFamilyOperandCount node
  | .arithmeticExpression _ first rest => by
    have ih := numTBinOpExpressions_eq_anyFamilyOperandCount first
    simp [numTBinOpExpressions, anyFamilyOperandCount, ih, numTBinOpExpressionsRest_eq_length]
  | .equalityExpression _ first rest => by
    have ih := numTBinOpExpressions_eq_anyFamilyOperandCount first
    simp [numTBinOpExpressions, anyFamilyOperandCount, ih, numTBinOpExpressionsRest_eq_length]
  | .logicalExpression _ first rest => by
    have ih := numTBinOpExpressions_eq_anyFamilyOperandCount first
    simp [numTBinOpExpressions, anyFamilyOperandCount, ih, numTBinOpExpressionsRest_eq_length]
  | .relationalExpression _ first rest => by
    have ih := numTBinOpExpressions_eq_anyFamilyOperandCount first
    simp [numTBinOpExpressions, anyFamilyOperandCount, ih, numTBinOpExpressionsRest_eq_length]
  | .asNullablePrimitiveType _ _ _ => rfl
  | .asType _ _ _ => rfl
  | .eachExpression _ _ _ => rfl
  | .errorRaisingExpression _ _ _ => rfl
  | .nullablePrimitiveType _ _ _ => rfl
  | .nullableType _ _ _ => rfl
  | .otherwiseExpression _ _ _ => rfl
  | .typePrimaryType _ _ _ => rfl
  | .isExpression _ _ _ _ => rfl
  | .asExpression _ _ _ _ => rfl
  | .metadataExpression _ _ _ _ => rfl
  | .generalizedIdentifierPairedAnyLiteral _ _ _ _ => rfl
  | .generalizedIdentifierPairedExpression _ _ _ _ => rfl
  | .identifierExpressionPairedExpression _ _ _ _ => rfl
  | .identifierPairedExpression _ _ _ _ => rfl
  | .listExpression _ _ _ _ => rfl
  | .listLiteral _ _ _ _ => rfl
  | .recordExpression _ _ _ _ => rfl
  | .recordLiteral _ _ _ _ => rfl
  | .csv _ => rfl
  | .errorHandlingExpression _ _ _ _ => rfl
  | .fieldProjection _ _ _ _ _ => rfl
  | .fieldSelector _ _ _ _ _ => rfl
  | .fieldSpecification _ _ _ _ => rfl
  | .fieldSpecificationList _ _ _ _ _ => rfl
  | .fieldTypeSpecification _ _ _ => rfl
  | .functionExpression _ _ _ _ _ => rfl
  | .identifierExpression _ => rfl
  | .ifExpression _ _ _ _ _ _ _ => rfl
  | .invokeExpression _ => rfl
  | .itemAccessExpression _ _ _ _ _ => rfl
  | .letExpression _ _ _ _ _ => rfl
  | .literalExpression _ => rfl
  | .listType _ _ _ _ => rfl
  | .parenthesizedExpression _ _ _ _ => rfl
  | .primitiveType _ _ => rfl
  | .recordType _ _ => rfl
  | .recursivePrimaryExpression _ _ _ => rfl
  | .sectionNode _ _ _ _ _ _ => rfl
  | .sectionMember _ _ _ _ _ => rfl
  | .tableType _ _ _ => rfl
  | .unaryExpression _ _ => rfl
  | .unaryExpressionHelperNode _ => rfl
  | .constant _ => rfl
  | .functionType _ _ _ => rfl
  | .generalizedIdentifier _ => rfl
  | .identifier _ => rfl
  | .notImplementedExpression _ _ => rfl
  | .parameter _ _ _ _ => rfl
  | .parameterList _ _ _ _ => rfl

/-- Claim C3 (confirmed): after the kind-specific rule computes a flag, the
committed value is the comment-overridden flag; a preceding
newline-containing comment forces it to `true` regardless of the rule-derived
value; the override never turns a rule-derived `true` into `false`; and
applying the override twice yields the same result as applying it once. -/
theorem comment_override_commit (node : TNode) (state : State) (isMultiline : Bool) :
    (visitNodeRule node state = .ok isMultiline →
      visitNodeCommittedFlag node state = .ok (commentOverriddenFlag node state isMultiline))
    ∧ (precededByMultilineComment node state = true →
      commentOverriddenFlag node state isMultiline = true)
    ∧ commentOverriddenFlag node state true = true
    ∧ commentOverriddenFlag node state (commentOverriddenFlag node state isMultiline)
      = commentOverriddenFlag node state isMultiline := by
  refine ⟨?_, ?_, ?_, ?_⟩
  · intro h
    simp [visitNodeCommittedFlag, visitNode, h, Except.map,
      getIsMultiline_setIsMultilineWithCommentCheck]
  · intro h
    simp [commentOverriddenFlag, h]
  · simp [commentOverriddenFlag]
  · by_cases h : precededByMultilineComment node state <;> simp [commentOverriddenFlag, h]

/-- Witness for claim C3: a constant node whose span has a
newline-containing preceding comment commits `true` although its rule
derives `false`. -/
theorem comment_override_commit_witness :
    visitNodeRule commentedConstant commentedState = .ok false
    ∧ precededByMultilineComment commentedConstant commentedState = true
    ∧ visitNodeCommittedFlag commentedConstant commentedState = .ok true := by
  refine ⟨rfl, rfl, ?_⟩
  exact (comment_override_commit commentedConstant commentedState false).1 rfl

/-- Claim C9 (confirmed): conditional and binding expressions commit a `true`
flag unconditionally, for every tree shape and every comment, parent, and
linear-length input. -/
theorem ifExpression_letExpression_always_multiline (state : State) (hashIf : Nat)
    (ifConstant : Constant) (condition : TNode) (thenConstant : Constant)
    (trueExpression : TNode) (elseConstant : Constant) (falseExpression : TNode)
    (hashLet : Nat) (letConstant : Constant) (variableList : List Csv)
    (inConstant : Constant) (expression : TNode) :
    visitNodeCommittedFlag
        (.ifExpression hashIf ifConstant condition thenConstant trueExpression
          elseConstant falseExpression) state = .ok true
    ∧ visitNodeCommittedFlag
        (.letExpression hashLet letConstant variableList inConstant expression) state
      = .ok true := by
  constructor <;>
    simp [visitNodeCommittedFlag, visitNode, visitNodeRule, Except.map,
      getIsMultiline_setIsMultilineWithCommentCheck, commentOverriddenFlag]

/-- Claim C8 (confirmed): a literal node's rule-derived flag is exactly
"text literal whose raw content contains a line break"; non-text literals
are never multiline by rule. -/
theorem literalExpression_rule (e : LiteralExpression) (state : State) :
    visitNodeRule (.literalExpression e) state
      = .ok (decide (e.literalKind = LiteralKind.str) && containsNewline e.literal) := by
  cases h : decide (e.literalKind = LiteralKind.str) && containsNewline e.literal <;>
    simp [visitNodeRule, h]

/-- Claim C7 (confirmed): a field-specification list's rule-derived flag is
`true` iff the field count exceeds 1, or it equals 1 and an open-record
marker is present; in every other case, including when the single field or
the wrappers carry a `true` flag, the rule-derived flag is `false`. -/
theorem fieldSpecificationList_rule (hash : Nat) (openWrapperConstant : Constant)
    (content : List Csv) (maybeOpenRecordMarkerConstant : Option Constant)
    (closeWrapperConstant : Constant) (state : State) :
    visitNodeRule
        (.fieldSpecificationList hash openWrapperConstant content
          maybeOpenRecordMarkerConstant closeWrapperConstant) state
      = .ok (decide (content.length > 1
          ∨ (content.length = 1 ∧ maybeOpenRecordMarkerConstant.isSome = true))) := by
  by_cases h1 : content.length > 1
  · simp [visitNodeRule, h1]
  · by_cases h2 : content.length = 1 <;>
      cases maybeOpenRecordMarkerConstant <;>
        simp [visitNodeRule, h1, h2]

/-- Claim C5 (confirmed): a list or record literal/expression with more than
one content item is multiline by rule; otherwise its rule-derived flag is
`true` iff the open wrapper, close wrapper, or a content item already has a
`true` flag, or the (single) content item's payload node is itself a list or
record literal/expression. -/
theorem listRecord_rule (hash : Nat) (openWrapperConstant : Constant)
    (content : List Csv) (closeWrapperConstant : Constant) (state : State) :
    (visitNodeRule (.listExpression hash openWrapperConstant content closeWrapperConstant) state
      = .ok (decide (content.length > 1)
          || isAnyMultiline state.result
              ([some (.constant openWrapperConstant), some (.constant closeWrapperConstant)]
                ++ content.map (fun csv => some (.csv csv)))
          || isAnyListOrRecord (content.map Csv.node)))
    ∧ (visitNodeRule (.listLiteral hash openWrapperConstant content closeWrapperConstant) state
      = .ok (decide (content.length > 1)
          || isAnyMultiline state.result
              ([some (.constant openWrapperConstant), some (.constant closeWrapperConstant)]
                ++ content.map (fun csv => some (.csv csv)))
          || isAnyListOrRecord (content.map Csv.node)))
    ∧ (visitNodeRule (.recordExpression hash openWrapperConstant content closeWrapperConstant) state
      = .ok (decide (content.length > 1)
          || isAnyMultiline state.result
              ([some (.constant openWrapperConstant), some (.constant closeWrapperConstant)]
                ++ content.map (fun csv => some (.csv csv)))
          || isAnyListOrRecord (content.map Csv.node)))
    ∧ (visitNodeRule (.recordLiteral hash openWrapperConstant content closeWrapperConstant) state
      = .ok (decide (content.length > 1)
          || isAnyMultiline state.result
              ([some (.constant openWrapperConstant), some (.constant closeWrapperConstant)]
                ++ content.map (fun csv => some (.csv csv)))
          || isAnyListOrRecord (content.map Csv.node))) := by
  refine ⟨?_, ?_, ?_, ?_⟩ <;> by_cases h1 : content.length > 1
  all_goals simp [visitNodeRule, h1]
  all_goals split <;> simp_all

/-- Claim C4, counterexample: the source text `1+2+3=4` refutes the claim's
classification formula.  Per the claim, the equality chain's flattened
terminal-operand count (same-family recursion) is 2, which does not exceed 3;
its linear length 7 does not exceed 30; and no operand node has a `true`
flag after the post-order visit — so the claim predicts `false`.  The code
commits `true`: `numTBinOpExpressions` also recurses into the arithmetic
chain sitting in `first` position, counting 4 operands. -/
theorem binOp_same_family_count_counterexample :
    sameFamilyOperandCount mixedFamilyChain ≤ TBinOpExpressionExpressionNumberThreshold
    ∧ getLinearLength mixedFamilyChain mixedFamilyChainState.linearLengths
      ≤ TBinOpExpressionLinearLengthThreshold
    ∧ (visitAll mixedFamilyChainPostOrder mixedFamilyChainState).map
        (fun s =>
          (isAnyMultilineUnaryHelper s.result [equalsFourHelper] [onePlusTwoPlusThree],
           getIsMultiline mixedFamilyChain s.result))
      = .ok (false, true) :=
  ⟨by decide, by decide, rfl⟩

/-- Claim C4 as amended: the flattened terminal-operand count of a binary
operator chain recurses into the `first` operand whenever it is itself a
binary-chain node of any of the four families (not only the same family),
while each `rest` element contributes exactly 1 even when its operand is a
chain; if that count exceeds 3 the node is multiline regardless of linear
length, otherwise if its flattened one-line length exceeds 30 it is
multiline, otherwise its flag is `true` iff some operand node's
already-computed flag is `true`. -/
theorem binOp_rule_amended (hash : Nat) (first : TNode)
    (rest : List UnaryExpressionHelper) (state : State) :
    (visitNodeRule (.arithmeticExpression hash first rest) state
      = .ok (if anyFamilyOperandCount (.arithmeticExpression hash first rest)
              > TBinOpExpressionExpressionNumberThreshold then true
          else if getLinearLength (.arithmeticExpression hash first rest) state.linearLengths
              > TBinOpExpressionLinearLengthThreshold then true
          else isAnyMultilineUnaryHelper state.result rest [first]))
    ∧ (visitNodeRule (.equalityExpression hash first rest) state
      = .ok (if anyFamilyOperandCount (.equalityExpression hash first rest)
              > TBinOpExpressionExpressionNumberThreshold then true
          else if getLinearLength (.equalityExpression hash first rest) state.linearLengths
              > TBinOpExpressionLinearLengthThreshold then true
          else isAnyMultilineUnaryHelper state.result rest [first]))
    ∧ (visitNodeRule (.logicalExpression hash first rest) state
      = .ok (if anyFamilyOperandCount (.logicalExpression hash first rest)
              > TBinOpExpressionExpressionNumberThreshold then true
          else if getLinearLength (.logicalExpression hash first rest) state.linearLengths
              > TBinOpExpressionLinearLengthThreshold then true
          else isAnyMultilineUnaryHelper state.result rest [first]))
    ∧ (visitNodeRule (.relationalExpression hash first rest) state
      = .ok (if anyFamilyOperandCount (.relationalExpression hash first rest)
              > TBinOpExpressionExpressionNumberThreshold then true
          else if getLinearLength (.relationalExpression hash first rest) state.linearLengths
              > TBinOpExpressionLinearLengthThreshold then true
          else isAnyMultilineUnaryHelper state.result rest [first])) := by
  refine ⟨?_, ?_, ?_, ?_⟩
  · simp [visitNodeRule, numTBinOpExpressions_eq_anyFamilyOperandCount]
    by_cases h1 : anyFamilyOperandCount (.arithmeticExpression hash first rest)
        > TBinOpExpressionExpressionNumberThreshold <;>
      by_cases h2 : getLinearLength (.arithmeticExpression hash first rest) state.linearLengths
          > TBinOpExpressionLinearLengthThreshold <;>
        simp [h1, h2]
  · simp [visitNodeRule, numTBinOpExpressions_eq_anyFamilyOperandCount]
    by_cases h1 : anyFamilyOperandCount (.equalityExpression hash first rest)
        > TBinOpExpressionExpressionNumberThreshold <;>
      by_cases h2 : getLinearLength (.equalityExpression hash first rest) state.linearLengths
          > TBinOpExpressionLinearLengthThreshold <;>
        simp [h1, h2]
  · simp [visitNodeRule, numTBinOpExpressions_eq_anyFamilyOperandCount]
    by_cases h1 : anyFamilyOperandCount (.logicalExpression hash first rest)
        > TBinOpExpressionExpressionNumberThreshold <;>
      by_cases h2 : getLinearLength (.logicalExpression hash first rest) state.linearLengths
          > TBinOpExpressionLinearLengthThreshold <;>
        simp [h1, h2]
  · simp [visitNodeRule, numTBinOpExpressions_eq_anyFamilyOperandCount]
    by_cases h1 : anyFamilyOperandCount (.relationalExpression hash first rest)
        > TBinOpExpressionExpressionNumberThreshold <;>
      by_cases h2 : getLinearLength (.relationalExpression hash first rest) state.linearLengths
          > TBinOpExpressionLinearLengthThreshold <;>
        simp [h1, h2]

/-- Claim C1, counterexample: the call
`(f)(aVeryLongArgumentNameOne, aVeryLongArgumentNameTwo)` has more than one
argument and composite linear length 53 over the threshold 30, its head
`(f)` is a parenthesized expression — not an excluded identifier — yet the
committed flag is `false`, refuting "every such long call whose head is not
an excluded identifier is multiline". -/
theorem long_invoke_nonidentifier_head_counterexample :
    parenthesizedHeadInvoke.content.length > 1
    ∧ getLinearLength (.invokeExpression parenthesizedHeadInvoke)
          parenthesizedHeadState.linearLengths
        + getLinearLength parenthesizedHead parenthesizedHeadState.linearLengths
      > InvokeExpressionLinearLengthThreshold
    ∧ maybeGetParent (.invokeExpression parenthesizedHeadInvoke)
        parenthesizedHeadState.parentMap
      = some (.recursivePrimaryExpression 230 parenthesizedHead
          [.invokeExpression parenthesizedHeadInvoke])
    ∧ parenthesizedHead
      = .parenthesizedExpression 200 { hash := 201, literal := "(" }
          (numericLiteral 202 "f") { hash := 203, literal := ")" }
    ∧ visitNodeCommittedFlag (.invokeExpression parenthesizedHeadInvoke)
        parenthesizedHeadState = .ok false :=
  ⟨by decide, by decide, rfl, rfl, rfl⟩

/-- Claim C1 as amended: an invocation with more than one argument and
composite linear length over 30 is classified multiline iff its parent's
chained-expression list has exactly one element and its head is a bare
identifier reference that either carries an optional-access marker or whose
literal is outside the exclusion set; when the head does not so resolve the
flag stays `false`. -/
theorem long_invoke_multiline_iff_identifier_head (e : InvokeExpression) (state : State)
    (parentHash : Nat) (head : TNode) (recs : List TNode)
    (hargs : e.content.length > 1)
    (hparent : maybeGetParent (.invokeExpression e) state.parentMap
      = some (.recursivePrimaryExpression parentHash head recs))
    (hlen : getLinearLength (.invokeExpression e) state.linearLengths
        + getLinearLength head state.linearLengths
      > InvokeExpressionLinearLengthThreshold) :
    visitNodeRule (.invokeExpression e) state
      = .ok (if recs.length = 1 then invokeExpressionIdentifierFlag head else false) := by
  simp only [visitNodeRule]
  rw [hparent]
  simp only [maybeGetInvokeExpressionIdentifier]
  rw [hparent]
  have hite : ∀ (b c : Bool),
      (if b = true then (Except.ok true : Except InvariantError Bool) else .ok c)
        = .ok (b || c) := by
    intro b c
    cases b <;> simp
  by_cases hrecs : recs.length = 1
  · cases head <;> simp [hargs, hrecs, hlen, invokeExpressionIdentifierFlag, hite]
  · simp [hargs, hrecs, hlen]

/-- Witness for the amended claim C1: the non-excluded long call
`foo(aVeryLongArgumentNameOne, aVeryLongArgumentNameTwo)` is classified
multiline. -/
theorem long_invoke_multiline_iff_identifier_head_witness :
    fooInvoke.content.length > 1
    ∧ getLinearLength (.invokeExpression fooInvoke) fooState.linearLengths
        + getLinearLength (.identifierExpression fooIdentifier) fooState.linearLengths
      > InvokeExpressionLinearLengthThreshold
    ∧ visitNodeRule (.invokeExpression fooInvoke) fooState = .ok true := by
  refine ⟨by decide, by decide, ?_⟩
  exact long_invoke_multiline_iff_identifier_head fooInvoke fooState 330
    (.identifierExpression fooIdentifier) [.invokeExpression fooInvoke]
    (by decide) rfl (by decide)

/-- Claim C2 (confirmed): an invocation with more than one argument and
composite linear length over 30, whose parent recursive-primary expression
has exactly one chained expression and whose head is a bare identifier
reference without an optional-access marker and with a literal in the
exclusion set, derives `false`; absent a comment override it also commits
`false`. -/
theorem excluded_long_invoke_not_multiline (e : InvokeExpression) (state : State)
    (parentHash : Nat) (identExpr : IdentifierExpression) (recs : List TNode)
    (hargs : e.content.length > 1)
    (hparent : maybeGetParent (.invokeExpression e) state.parentMap
      = some (.recursivePrimaryExpression parentHash (.identifierExpression identExpr) recs))
    (hrecs : recs.length = 1)
    (hinc : identExpr.maybeInclusiveConstant = none)
    (hlit : InvokeExpressionIdentifierLinearLengthExclusions.contains
      identExpr.identifier.literal = true)
    (hlen : getLinearLength (.invokeExpression e) state.linearLengths
        + getLinearLength (.identifierExpression identExpr) state.linearLengths
      > InvokeExpressionLinearLengthThreshold)
    (hcomment : precededByMultilineComment (.invokeExpression e) state = false) :
    visitNodeRule (.invokeExpression e) state = .ok false
    ∧ visitNodeCommittedFlag (.invokeExpression e) state = .ok false := by
  have hrule : visitNodeRule (.invokeExpression e) state = .ok false := by
    simp only [visitNodeRule]
    rw [hparent]
    simp only [maybeGetInvokeExpressionIdentifier]
    rw [hparent]
    have hmem : identExpr.identifier.literal
        ∈ InvokeExpressionIdentifierLinearLengthExclusions := by
      simpa using hlit
    simp [hargs, hrecs, hinc, hlen, hmem]
  refine ⟨hrule, ?_⟩
  simp [visitNodeCommittedFlag, visitNode, hrule, Except.map,
    getIsMultiline_setIsMultilineWithCommentCheck, commentOverriddenFlag, hcomment]

/-- Witness for claim C2: `#datetimezone(2013,02,26,...)` with composite
linear length 39 over the threshold commits `false`. -/
theorem excluded_long_invoke_not_multiline_witness :
    datetimezoneInvoke.content.length > 1
    ∧ InvokeExpressionIdentifierLinearLengthExclusions.contains
        datetimezoneIdentifier.identifier.literal = true
    ∧ getLinearLength (.invokeExpression datetimezoneInvoke) datetimezoneState.linearLengths
        + getLinearLength (.identifierExpression datetimezoneIdentifier)
            datetimezoneState.linearLengths
      > InvokeExpressionLinearLengthThreshold
    ∧ visitNodeCommittedFlag (.invokeExpression datetimezoneInvoke) datetimezoneState
      = .ok false := by
  refine ⟨by decide, rfl, by decide, ?_⟩
  exact (excluded_long_invoke_not_multiline datetimezoneInvoke datetimezoneState 130
    datetimezoneIdentifier [.invokeExpression datetimezoneInvoke]
    (by decide) rfl rfl rfl rfl (by decide) rfl).2

/-- Claim C6 (confirmed): an invocation with more than one argument whose
parent is absent or not a recursive-primary expression makes `visitNode`
abort with the invariant error naming the offending node and its actual
parent (or absence); no state — and hence no flag — is ever produced. -/
theorem invoke_missing_parent_invariant_error (e : InvokeExpression) (state : State)
    (hargs : e.content.length > 1)
    (hparent : ∀ (parentHash : Nat) (head : TNode) (recs : List TNode),
      maybeGetParent (.invokeExpression e) state.parentMap
        ≠ some (.recursivePrimaryExpression parentHash head recs)) :
    visitNode (.invokeExpression e) state
      = .error
        { message := "InvokeExpression must have RecursivePrimaryExpression as a parent"
          node := .invokeExpression e
          maybeParent := maybeGetParent (.invokeExpression e) state.parentMap }
    ∧ ∀ (newState : State), visitNode (.invokeExpression e) state ≠ .ok newState := by
  have herr : visitNode (.invokeExpression e) state
      = .error
        { message := "InvokeExpression must have RecursivePrimaryExpression as a parent"
          node := .invokeExpression e
          maybeParent := maybeGetParent (.invokeExpression e) state.parentMap } := by
    simp only [visitNode, visitNodeRule]
    cases hm : maybeGetParent (.invokeExpression e) state.parentMap with
    | none => simp [hargs, hm]
    | some p =>
      cases p <;> first
        | exact absurd hm (hparent _ _ _)
        | simp [hargs, hm]
  exact ⟨herr, by simp [herr]⟩

/-- Witness for claim C6: a two-argument invocation with an empty parent
index aborts with the invariant error reporting the node and the absent
parent. -/
theorem invoke_missing_parent_invariant_error_witness :
    orphanInvoke.content.length > 1
    ∧ visitNode (.invokeExpression orphanInvoke) orphanState
      = .error
        { message := "InvokeExpression must have RecursivePrimaryExpression as a parent"
          node := .invokeExpression orphanInvoke
          maybeParent := none } := by
  refine ⟨by decide, ?_⟩
  exact (invoke_missing_parent_invariant_error orphanInvoke orphanState (by decide)
    (by intro parentHash head recs h
        simp [maybeGetParent, List.lookup] at h)).1

/-- Claim C10 (confirmed): under the precondition the caller in `visitNode`
has already established — the invocation's parent exists and is a
recursive-primary expression — `maybeGetInvokeExpressionIdentifier` always
returns normally (the resolved identifier expression or absence) and never
reaches its own invariant-error branch. -/
theorem maybeGetInvokeExpressionIdentifier_total (e : InvokeExpression) (state : State)
    (parentHash : Nat) (head : TNode) (recs : List TNode)
    (hparent : maybeGetParent (.invokeExpression e) state.parentMap
      = some (.recursivePrimaryExpression parentHash head recs)) :
    maybeGetInvokeExpressionIdentifier e state
      = .ok (if recs.length = 1 then headIdentifierExpression head else none)
    ∧ ∀ (err : InvariantError), maybeGetInvokeExpressionIdentifier e state ≠ .error err := by
  have hok : maybeGetInvokeExpressionIdentifier e state
      = .ok (if recs.length = 1 then headIdentifierExpression head else none) := by
    simp only [maybeGetInvokeExpressionIdentifier]
    rw [hparent]
    by_cases hrecs : recs.length = 1
    · cases head <;> simp [hrecs, headIdentifierExpression]
    · simp [hrecs]
  exact ⟨hok, by simp [hok]⟩

/-- Witness for claim C10: on the `#datetimezone` call the identifier lookup
returns the head identifier expression without error. -/
theorem maybeGetInvokeExpressionIdentifier_total_witness :
    maybeGetInvokeExpressionIdentifier datetimezoneInvoke datetimezoneState
      = .ok (some datetimezoneIdentifier) := by
  exact (maybeGetInvokeExpressionIdentifier_total datetimezoneInvoke datetimezoneState 130
    (.identifierExpression datetimezoneIdentifier) [.invokeExpression datetimezoneInvoke]
    rfl).1
